import Mathlib

/-!
Shallow embedding of the order-lifecycle / payment-reconciliation core of
`src/app.py` (a Flask commerce app persisting orders to SQLite).

Modelling conventions:
* SQLite rows become Lean structures; nullable columns are `Option _`;
  the `REAL` money columns are `Rat` (pure pass-through, no arithmetic).
* `datetime('now')` is an explicit `now : Nat` parameter threaded into every
  handler; two calls at different wall-clock times get different `now`.
* Every non-deterministic `uuid4()` the code generates becomes an explicit
  parameter (`item_id`, `oid`), since its freshness is what some claims hinge on.
* Outbound HTTP (PayPal / NOWPayments / Discord) is an external collaborator:
  its observable result (success flag, reported status, parsed payload) is a
  handler parameter.  Notification side effects (CSV, Discord) never touch the
  order store and are omitted from the state.
* A handler returns `Store × Nat`: the resulting store and the HTTP status code.
* `try ... except` around a SQLite transaction: an exception before `commit`
  means the transaction is discarded (SQLite rolls back the uncommitted
  transaction, explicitly via `rollback()` or implicitly when the per-request
  connection closes), so a failing write is modelled by a `dbOk : Bool`
  parameter and a failing handler returns the pre-transaction store.
-/

/-- One row of the `orders` table (schema of `init_db` plus the columns added by
`migrate_orders_table` in `src/app.py`). -/
structure OrderRow where
  order_id : String
  timestamp : Nat
  name : Option String
  email : Option String
  total_price : Option Rat
  payment_status : Option String
  completion_status : Option String
  birth_date : Option String
  birth_time : Option String
  birth_place : Option String
  secondary_birth_date : Option String
  secondary_birth_time : Option String
  secondary_birth_place : Option String
  paypal_order_id : Option String
  status : Option String
  created_at : Option Nat
  captured_at : Option Nat
  reading : Option String
  mode : Option String
deriving Repr, DecidableEq

/-- One row of the `order_items` table. `item_id` is the primary key. -/
structure OrderItemRow where
  order_id : String
  item_id : String
  reading_type : Option String
  reading_mode : Option String
  price : Option Rat
  question : Option String
deriving Repr, DecidableEq

/-- The SQLite database: the two tables of `init_db`. -/
structure Store where
  orders : List OrderRow
  order_items : List OrderItemRow
deriving Repr, DecidableEq

/-- SQL `COALESCE(a, b)`: the first non-NULL argument. -/
def coalesce {α : Type} (a b : Option α) : Option α :=
  match a with
  | some x => some x
  | none => b

/-- SELECT * FROM orders WHERE order_id = tid LIMIT 1. -/
def findOrder (s : Store) (tid : String) : Option OrderRow :=
  s.orders.find? (fun o => o.order_id == tid)

/-- SELECT * FROM order_items WHERE item_id = iid LIMIT 1. -/
def findItem (s : Store) (iid : String) : Option OrderItemRow :=
  s.order_items.find? (fun i => i.item_id == iid)

/-- `INSERT OR IGNORE INTO orders`: a no-op when a row with the same
`order_id` primary key already exists, otherwise appends the row. -/
def insertOrIgnoreOrder (r : OrderRow) (s : Store) : Store :=
  if (findOrder s r.order_id).isSome then s
  else { s with orders := s.orders ++ [r] }

/-- `INSERT OR IGNORE INTO order_items`: a no-op when a row with the same
`item_id` primary key already exists, otherwise appends the row. -/
def insertOrIgnoreItem (r : OrderItemRow) (s : Store) : Store :=
  if (findItem s r.item_id).isSome then s
  else { s with order_items := s.order_items ++ [r] }

/-- `UPDATE orders SET ... WHERE order_id = oid`: applies `g` to every row
whose `order_id` equals `oid` (at most one, but the model does not need that). -/
def updateOrders (oid : String) (g : OrderRow → OrderRow) (s : Store) : Store :=
  { s with orders := s.orders.map (fun o => if o.order_id == oid then g o else o) }

/-- Python truthiness of an optional string (`if custom_id:` / `if not order_id:`):
`None` and the empty string are falsy. -/
def truthy (o : Option String) : Bool :=
  match o with
  | none => false
  | some s => s ≠ ""

/-- The `READINGS` catalog of `src/app.py`: key ↦ (name, pdf price, video price). -/
structure ReadingInfo where
  name : String
  pdf_price : Rat
  video_price : Rat
deriving Repr, DecidableEq

def READINGS : List (String × ReadingInfo) :=
  [ ("natal", ⟨"Natal Chart Analysis", 90, 120⟩)
  , ("orientation", ⟨"Orientation / Career Guidance", 70, 90⟩)
  , ("love", ⟨"Love & Relationship Guidance", 70, 90⟩)
  , ("focus", ⟨"Other Focus Area", 60, 80⟩)
  , ("annual", ⟨"Annual Horoscope (Solar Return)", 85, 110⟩)
  , ("horary", ⟨"Horary Chart Analysis", 55, 75⟩)
  , ("synastry", ⟨"Synastry", 95, 125⟩) ]

/-- `READINGS.get(reading_key)` (with `None` for a missing or absent key). -/
def readingsGet (k : Option String) : Option ReadingInfo :=
  match k with
  | none => none
  | some key => (READINGS.find? (fun p => p.1 == key)).map (fun p => p.2)

/-! ### Handlers (the store-touching parts of the routes in `src/app.py`) -/

/-- Row inserted by the `order_details` POST handler (`INSERT INTO orders ...
VALUES (?, datetime('now'), ?, ?, NULL, 'unpaid', 'new', ..., 'created',
datetime('now'), ?, ?)`). -/
def orderDetailsRow (oid : String) (now : Nat) (name email : String)
    (bd bt bp sbd sbt sbp : Option String) (reading_key mode : String) : OrderRow :=
  { order_id := oid, timestamp := now, name := some name, email := some email
  , total_price := none, payment_status := some "unpaid", completion_status := some "new"
  , birth_date := bd, birth_time := bt, birth_place := bp
  , secondary_birth_date := sbd, secondary_birth_time := sbt, secondary_birth_place := sbp
  , paypal_order_id := none, status := some "created", created_at := some now
  , captured_at := none, reading := some reading_key, mode := some mode }

/-- POST `/order/details` (`order_details` in `src/app.py`): validates the
catalog key, mode and the name/email form fields, then a plain (non-IGNORE)
`INSERT` of one order and one item inside one transaction.  A duplicate
`order_id` or `item_id` raises, the transaction is never committed, and the
handler redirects with an error (302 here); `dbOk = false` models any other
write failure.  Success redirects to checkout (302 as well); the interesting
observable is the store. -/
def order_details_post (reading_key mode : String) (name email : String)
    (bd bt bp sbd sbt sbp : Option String) (question : Option String)
    (oid item_id : String) (now : Nat) (dbOk : Bool) (s : Store) : Store × Nat :=
  if (readingsGet (some reading_key)).isNone ∨ (mode ≠ "pdf" ∧ mode ≠ "video") then
    (s, 302)
  else if name = "" ∨ email = "" then (s, 302)
  else if (findOrder s oid).isSome ∨ (findItem s item_id).isSome ∨ ¬dbOk then
    (s, 302)
  else
    let s1 := { s with orders := s.orders ++
      [orderDetailsRow oid now name email bd bt bp sbd sbt sbp reading_key mode] }
    let s2 := { s1 with order_items := s1.order_items ++
      [{ order_id := oid, item_id := item_id, reading_type := some reading_key
       , reading_mode := some mode, price := none, question := question }] }
    (s2, 302)

/-- Row inserted by the crypto-checkout handler (`INSERT OR IGNORE INTO orders
(order_id, timestamp, total_price, payment_status, completion_status, status,
created_at, reading, mode) VALUES (?, datetime('now'), ?, 'unpaid', 'new',
'created', datetime('now'), ?, ?)`; unnamed columns are NULL). -/
def cryptoCheckoutRow (oid : String) (now : Nat) (price : Rat)
    (reading_key mode : Option String) : OrderRow :=
  { order_id := oid, timestamp := now, name := none, email := none
  , total_price := some price, payment_status := some "unpaid"
  , completion_status := some "new", birth_date := none, birth_time := none
  , birth_place := none, secondary_birth_date := none
  , secondary_birth_time := none, secondary_birth_place := none
  , paypal_order_id := none, status := some "created", created_at := some now
  , captured_at := none, reading := reading_key, mode := mode }

/-- POST `/crypto/checkout` (`crypto_checkout` in `src/app.py`): validates the
request, creates a NOWPayments invoice (external call, modelled by `invoiceOk`
and `invoice_url`), then `INSERT OR IGNORE INTO orders (...) VALUES
(?, datetime('now'), ?, 'unpaid', 'new', 'created', datetime('now'), ?, ?)`
with the catalog price as `total_price`, and redirects to the invoice URL.
Any failure (invoice error, missing URL, DB error) redirects back with an
error and commits nothing. -/
def crypto_checkout (reading_key mode order_id : Option String)
    (invoiceOk : Bool) (invoice_url : Option String) (dbOk : Bool)
    (now : Nat) (s : Store) : Store × Nat :=
  match readingsGet reading_key, order_id with
  | some reading, some oid =>
    if (mode ≠ some "pdf" ∧ mode ≠ some "video") ∨ ¬ truthy order_id then (s, 302)
    else
      let price := if mode = some "pdf" then reading.pdf_price else reading.video_price
      if ¬invoiceOk ∨ ¬ truthy invoice_url ∨ ¬dbOk then (s, 302)
      else (insertOrIgnoreOrder (cryptoCheckoutRow oid now price reading_key mode) s, 302)
  | _, _ => (s, 302)

/-- POST `/api/paypal/orders` (`api_paypal_orders` in `src/app.py`): validates
parameters (400), calls the remote PayPal create-order endpoint (502 on
failure, modelled by `remoteOk` / `paypalId` = `data.get("id")`), then best
effort `INSERT OR IGNORE` of an unpaid 'created' note — a DB error here is
logged and does not fail the request.  Finally 201. -/
def api_paypal_orders (order_id reading_key mode : Option String)
    (remoteOk : Bool) (paypalId : Option String) (dbOk : Bool)
    (now : Nat) (s : Store) : Store × Nat :=
  match order_id, readingsGet reading_key with
  | some oid, some _ =>
    if (mode ≠ some "pdf" ∧ mode ≠ some "video") ∨ ¬ truthy order_id then (s, 400)
    else if ¬remoteOk then (s, 502)
    else if ¬dbOk then (s, 201)
    else
      (insertOrIgnoreOrder
        { order_id := oid, timestamp := now, name := none, email := none
        , total_price := none, payment_status := some "unpaid"
        , completion_status := some "new", birth_date := none, birth_time := none
        , birth_place := none, secondary_birth_date := none
        , secondary_birth_time := none, secondary_birth_place := none
        , paypal_order_id := paypalId, status := some "created"
        , created_at := some now, captured_at := none
        , reading := reading_key, mode := mode } s, 201)
  | _, _ => (s, 400)

/-- Merge applied by the `UPDATE orders SET ... WHERE order_id = ?` statement of
`api_paypal_capture` (lines 651-666 of `src/app.py`).  The bound parameters
`amount_value` and `paypal_order_id` are always non-NULL on this path, so their
`COALESCE(?, col)` keeps the incoming value; `email`/`name` use the opposite
argument order `COALESCE(col, ?)`, keeping the existing value when non-NULL. -/
def captureMergeRow (now : Nat) (amount : Rat) (pp_oid : String)
    (reading mode : Option String) (payer_email payer_name : Option String)
    (o : OrderRow) : OrderRow :=
  { o with
    total_price := coalesce (some amount) o.total_price
  , payment_status := some "paid"
  , status := some "captured"
  , captured_at := some now
  , paypal_order_id := coalesce (some pp_oid) o.paypal_order_id
  , reading := coalesce reading o.reading
  , mode := coalesce mode o.mode
  , email := coalesce o.email payer_email
  , name := coalesce o.name payer_name }

/-- Row inserted by statement 1 of the capture transaction (`INSERT OR IGNORE
INTO orders ... VALUES (?, datetime('now'), NULL, NULL, ?, 'paid', 'new', ...,
?, 'captured', datetime('now'), datetime('now'), ?, ?)`). -/
def captureInsertRow (now : Nat) (internal_id : String) (amount : Rat)
    (pp_oid : String) (reading mode : Option String) : OrderRow :=
  { order_id := internal_id, timestamp := now, name := none, email := none
  , total_price := some amount, payment_status := some "paid"
  , completion_status := some "new", birth_date := none, birth_time := none
  , birth_place := none, secondary_birth_date := none, secondary_birth_time := none
  , secondary_birth_place := none, paypal_order_id := some pp_oid
  , status := some "captured", created_at := some now, captured_at := some now
  , reading := reading, mode := mode }

/-- The three-statement settlement transaction of `api_paypal_capture`
(lines 634-677 of `src/app.py`): (1) `INSERT OR IGNORE` a fully-paid row,
(2) `UPDATE` the (now surely existing) row with the merge rules,
(3) `INSERT OR IGNORE` one line item mirroring the reading, with a fresh
`uuid4()` primary key passed here as `item_id`. -/
def paypalCaptureDb (now : Nat) (internal_id pp_oid : String)
    (reading mode : Option String) (amount : Rat)
    (payer_email payer_name : Option String) (item_id : String)
    (s : Store) : Store :=
  let s1 := insertOrIgnoreOrder (captureInsertRow now internal_id amount pp_oid reading mode) s
  let s2 := updateOrders internal_id
    (captureMergeRow now amount pp_oid reading mode payer_email payer_name) s1
  insertOrIgnoreItem
    { order_id := internal_id, item_id := item_id, reading_type := reading
    , reading_mode := mode, price := some amount, question := none } s2

/-- POST `/api/paypal/orders/<id>/capture` (`api_paypal_capture` in
`src/app.py`).  External capture call: failure → 502; remote-reported status
other than "COMPLETED" → 400 before any DB access; amount parse failure → 500.
The write transaction: on an exception `db.rollback()` restores the
pre-transaction store and the handler returns 500; on success, 200. -/
def api_paypal_capture (remoteOk : Bool) (pstatus : Option String)
    (parseOk : Bool) (now : Nat) (internal_id pp_oid : String)
    (reading mode : Option String) (amount : Rat)
    (payer_email payer_name : Option String) (item_id : String)
    (dbOk : Bool) (s : Store) : Store × Nat :=
  if ¬remoteOk then (s, 502)
  else if pstatus ≠ some "COMPLETED" then (s, 400)
  else if ¬parseOk then (s, 500)
  else if ¬dbOk then (s, 500)
  else (paypalCaptureDb now internal_id pp_oid reading mode amount
          payer_email payer_name item_id s, 200)

/-- A verified PayPal webhook event as consumed by `paypal_webhook`:
`event_type` and `resource.custom_id` are the only fields the handler reads. -/
structure PaypalEvent where
  event_type : Option String
  custom_id : Option String
deriving Repr, DecidableEq

/-- POST `/webhooks/paypal` (`paypal_webhook` in `src/app.py`): 400 when no
webhook id is configured or the remote verification call fails; otherwise the
store is touched only when `verification_status == "SUCCESS"`, the event type
is `PAYMENT.CAPTURE.COMPLETED` and a truthy `custom_id` is present — and then
the only write is `UPDATE orders SET payment_status = 'paid' WHERE order_id = ?`.
Always 200 once verification responded. -/
def paypal_webhook (webhookIdSet : Bool) (verifyRespOk : Bool)
    (verification_status : Option String) (event : PaypalEvent)
    (s : Store) : Store × Nat :=
  if ¬webhookIdSet then (s, 400)
  else if ¬verifyRespOk then (s, 400)
  else if verification_status = some "SUCCESS"
          ∧ event.event_type = some "PAYMENT.CAPTURE.COMPLETED" then
    match event.custom_id with
    | some cid =>
      if cid ≠ "" then
        (updateOrders cid (fun o => { o with payment_status := some "paid" }) s, 200)
      else (s, 200)
    | none => (s, 200)
  else (s, 200)

/-- The fields of a NOWPayments IPN JSON body read by `crypto_webhook`. -/
structure CryptoIpn where
  payment_status : Option String
  order_id : Option String
  pay_amount : Option Rat
  price_amount : Option Rat
  price_currency : Option String
  pay_currency : Option String
deriving Repr, DecidableEq

/-- `payment_status in ("finished", "confirmed", "paid")`. -/
def ipnSettles (ps : Option String) : Bool :=
  ps == some "finished" || ps == some "confirmed" || ps == some "paid"

/-- Merge applied by the `UPDATE orders SET payment_status='paid',
status='captured', total_price=COALESCE(?, total_price),
captured_at=datetime('now') WHERE order_id=?` statement of `crypto_webhook`
(lines 805-815 of `src/app.py`); `pay_amount` may be NULL. -/
def cryptoSettleMerge (now : Nat) (pay_amount : Option Rat) (o : OrderRow) : OrderRow :=
  { o with
    payment_status := some "paid"
  , status := some "captured"
  , total_price := coalesce pay_amount o.total_price
  , captured_at := some now }

/-- The two-statement settlement transaction of `crypto_webhook`
(lines 803-823 of `src/app.py`): the `UPDATE` above, then `INSERT OR IGNORE
INTO order_items ... SELECT order_id, ?, reading, mode, total_price, NULL FROM
orders WHERE order_id=?` — the line item is synthesized from the (updated)
order row itself, with a fresh `uuid4()` primary key passed as `item_id`;
when no order row matches, the SELECT is empty and nothing is inserted. -/
def cryptoSettleDb (now : Nat) (order_id : String) (pay_amount : Option Rat)
    (item_id : String) (s : Store) : Store :=
  let s1 := updateOrders order_id (cryptoSettleMerge now pay_amount) s
  match findOrder s1 order_id with
  | none => s1
  | some o =>
    insertOrIgnoreItem
      { order_id := o.order_id, item_id := item_id, reading_type := o.reading
      , reading_mode := o.mode, price := o.total_price, question := none } s1

/-- POST `/webhooks/crypto` (`crypto_webhook` in `src/app.py`): the handler
recomputes `hmac.new(NOWPAYMENTS_IPN_SECRET, raw_body, sha512).hexdigest()` —
abstracted here as an arbitrary `digest` function applied to the secret and the
exact raw body — and compares it to the `x-nowpayments-sig` header with
`hmac.compare_digest` (functionally string equality); 403 before any store
access on mismatch.  Then: missing/empty `order_id` → 200, no write; a
settling `payment_status` → the settlement transaction (a DB exception is
logged, never committed, and the handler still returns 200); otherwise 200,
no write. -/
def crypto_webhook (digest : String → String → String) (secret rawBody : String)
    (signature : String) (j : CryptoIpn) (now : Nat) (item_id : String)
    (dbOk : Bool) (s : Store) : Store × Nat :=
  let calc_sig := digest secret rawBody
  if calc_sig ≠ signature then (s, 403)
  else if ¬ truthy j.order_id then (s, 200)
  else if ipnSettles j.payment_status then
    if ¬dbOk then (s, 200)
    else
      match j.order_id with
      | some oid => (cryptoSettleDb now oid j.pay_amount item_id s, 200)
      | none => (s, 200)
  else (s, 200)

/-! ### Lemma kit for the store primitives -/

/-- Mapping a row-transformer that preserves the search predicate commutes with
`List.find?`. -/
theorem find?_map_of_pres {α : Type} (f : α → α) (p : α → Bool)
    (hp : ∀ a, p (f a) = p a) :
    ∀ l : List α, (l.map f).find? p = (l.find? p).map f := by
  intro l
  induction l with
  | nil => rfl
  | cons a t ih =>
    by_cases h : p a = true
    · rw [List.map_cons, List.find?_cons_of_pos _ (by rw [hp]; exact h),
        List.find?_cons_of_pos _ h]
      rfl
    · rw [List.map_cons, List.find?_cons_of_neg _ (by rw [hp]; simpa using h),
        List.find?_cons_of_neg _ (by simpa using h)]
      exact ih

/-- Finding in an append when the left list already contains a hit. -/
theorem find?_append_of_some {α : Type} (l1 l2 : List α) (p : α → Bool) (a : α)
    (h : l1.find? p = some a) : (l1 ++ l2).find? p = some a := by
  induction l1 with
  | nil => simp [List.find?] at h
  | cons b t ih =>
    by_cases hb : p b = true
    · rw [List.find?_cons_of_pos _ hb] at h
      rw [List.cons_append, List.find?_cons_of_pos _ hb]
      exact h
    · rw [List.find?_cons_of_neg _ (by simpa using hb)] at h
      rw [List.cons_append, List.find?_cons_of_neg _ (by simpa using hb)]
      exact ih h

/-- Finding in an append when the left list has no hit. -/
theorem find?_append_of_none {α : Type} (l1 l2 : List α) (p : α → Bool)
    (h : l1.find? p = none) : (l1 ++ l2).find? p = l2.find? p := by
  induction l1 with
  | nil => rfl
  | cons b t ih =>
    by_cases hb : p b = true
    · rw [List.find?_cons_of_pos _ hb] at h
      exact absurd h (by simp)
    · rw [List.find?_cons_of_neg _ (by simpa using hb)] at h
      rw [List.cons_append, List.find?_cons_of_neg _ (by simpa using hb)]
      exact ih h

theorem findOrder_updateOrders (s : Store) (oid tid : String)
    (g : OrderRow → OrderRow) (hg : ∀ o, (g o).order_id = o.order_id) :
    findOrder (updateOrders oid g s) tid
      = (findOrder s tid).map (fun o => if o.order_id == oid then g o else o) := by
  unfold findOrder updateOrders
  exact find?_map_of_pres _ _
    (fun a => by by_cases h : a.order_id == oid <;> simp [h, hg]) s.orders

theorem findItem_updateOrders (s : Store) (oid iid : String)
    (g : OrderRow → OrderRow) :
    findItem (updateOrders oid g s) iid = findItem s iid := rfl

theorem findOrder_insertOrIgnoreItem (r : OrderItemRow) (s : Store) (tid : String) :
    findOrder (insertOrIgnoreItem r s) tid = findOrder s tid := by
  unfold insertOrIgnoreItem
  by_cases h : (findItem s r.item_id).isSome <;> simp [h, findOrder]

theorem insertOrIgnoreOrder_of_present (r : OrderRow) (s : Store)
    (h : (findOrder s r.order_id).isSome) : insertOrIgnoreOrder r s = s := by
  simp [insertOrIgnoreOrder, h]

theorem findOrder_insertOrIgnoreOrder_of_found (r : OrderRow) (s : Store)
    (tid : String) (o : OrderRow) (h : findOrder s tid = some o) :
    findOrder (insertOrIgnoreOrder r s) tid = some o := by
  unfold insertOrIgnoreOrder
  by_cases hp : (findOrder s r.order_id).isSome
  · simpa [hp] using h
  · rw [if_neg hp]
    unfold findOrder at h ⊢
    exact find?_append_of_some _ _ _ _ h

theorem findOrder_insertOrIgnoreOrder_self (r : OrderRow) (s : Store) :
    (findOrder (insertOrIgnoreOrder r s) r.order_id).isSome := by
  unfold insertOrIgnoreOrder
  by_cases hp : (findOrder s r.order_id).isSome
  · simp [hp]
  · rw [if_neg hp]
    unfold findOrder at hp ⊢
    rw [find?_append_of_none _ _ _ (by simpa using hp)]
    simp [List.find?]

theorem insertOrIgnoreItem_of_present (r : OrderItemRow) (s : Store)
    (h : (findItem s r.item_id).isSome) : insertOrIgnoreItem r s = s := by
  simp [insertOrIgnoreItem, h]

theorem findItem_insertOrIgnoreItem_self (r : OrderItemRow) (s : Store) :
    (findItem (insertOrIgnoreItem r s) r.item_id).isSome := by
  unfold insertOrIgnoreItem
  by_cases hp : (findItem s r.item_id).isSome
  · simp [hp]
  · rw [if_neg hp]
    unfold findItem at hp ⊢
    rw [find?_append_of_none _ _ _ (by simpa using hp)]
    simp [List.find?]

theorem findOrder_some_id (s : Store) (tid : String) (o : OrderRow)
    (h : findOrder s tid = some o) : o.order_id = tid := by
  have := List.find?_some h
  simpa using this

theorem insertOrIgnoreOrder_of_absent (r : OrderRow) (s : Store)
    (h : findOrder s r.order_id = none) :
    insertOrIgnoreOrder r s = { s with orders := s.orders ++ [r] } := by
  simp [insertOrIgnoreOrder, h]

/-! ### Sample data for concrete evaluations -/

/-- A freshly-created order row as the `order_details` POST writes it. -/
def sampleCreatedRow : OrderRow :=
  { order_id := "o1", timestamp := 0, name := some "Alice"
  , email := some "alice@example.com", total_price := none
  , payment_status := some "unpaid", completion_status := some "new"
  , birth_date := some "1990-01-01", birth_time := none, birth_place := none
  , secondary_birth_date := none, secondary_birth_time := none
  , secondary_birth_place := none, paypal_order_id := none
  , status := some "created", created_at := some 0, captured_at := none
  , reading := some "natal", mode := some "pdf" }

/-- A store holding one created (unpaid) order and its line item. -/
def sampleStore : Store :=
  { orders := [sampleCreatedRow]
  , order_items := [{ order_id := "o1", item_id := "i0", reading_type := some "natal"
                    , reading_mode := some "pdf", price := none
                    , question := some "career" }] }

/-- An already-captured order row (settled at time 1). -/
def samplePaidRow : OrderRow :=
  { sampleCreatedRow with
    total_price := some 90, payment_status := some "paid"
  , status := some "captured", captured_at := some 1 }

/-- A store holding one captured order and its line item. -/
def samplePaidStore : Store :=
  { orders := [samplePaidRow]
  , order_items := [{ order_id := "o1", item_id := "i0", reading_type := some "natal"
                    , reading_mode := some "pdf", price := some 90
                    , question := some "career" }] }

/-- A settling NOWPayments IPN payload for order `o1`. -/
def sampleIpn : CryptoIpn :=
  { payment_status := some "finished", order_id := some "o1", pay_amount := some 90
  , price_amount := some 90, price_currency := some "EUR"
  , pay_currency := some "USDTTRC20" }

/-! ### C9 -/

/-- C9: when the synchronous PayPal capture call reaches the handler but the
remote-reported status is not the terminal "COMPLETED" value, the handler
returns an error response (400) and performs no store mutation — the order is
left in its prior state and is not marked paid. -/
theorem paypal_capture_non_terminal
    (pstatus : Option String) (h : pstatus ≠ some "COMPLETED")
    (parseOk : Bool) (now : Nat) (internal_id pp_oid : String)
    (reading mode : Option String) (amount : Rat)
    (payer_email payer_name : Option String) (item_id : String)
    (dbOk : Bool) (s : Store) :
    api_paypal_capture true pstatus parseOk now internal_id pp_oid reading mode
      amount payer_email payer_name item_id dbOk s = (s, 400) := by
  simp [api_paypal_capture, h]

theorem paypal_capture_non_terminal_witness :
    (some "PENDING" : Option String) ≠ some "COMPLETED"
    ∧ api_paypal_capture true (some "PENDING") true 2 "o1" "pp1" (some "natal")
        (some "pdf") 90 none none "i1" true sampleStore = (sampleStore, 400) :=
  ⟨by decide, paypal_capture_non_terminal (some "PENDING") (by decide) true 2
    "o1" "pp1" (some "natal") (some "pdf") 90 none none "i1" true sampleStore⟩

/-! ### C7 -/

/-- C7: a crypto IPN request whose HMAC-SHA512 signature over the exact raw
body (any digest function of the secret and the raw body) differs from the
provided `x-nowpayments-sig` header is answered with 403 and causes no store
mutation. -/
theorem crypto_webhook_signature_mismatch
    (digest : String → String → String) (secret rawBody signature : String)
    (h : digest secret rawBody ≠ signature) (j : CryptoIpn) (now : Nat)
    (item_id : String) (dbOk : Bool) (s : Store) :
    crypto_webhook digest secret rawBody signature j now item_id dbOk s
      = (s, 403) := by
  simp [crypto_webhook, h]

theorem crypto_webhook_signature_mismatch_witness :
    (fun (_ _ : String) => "aaaa") "secret" "rawbody" ≠ "bbbb"
    ∧ crypto_webhook (fun _ _ => "aaaa") "secret" "rawbody" "bbbb" sampleIpn 2
        "i1" true sampleStore = (sampleStore, 403) :=
  ⟨by decide, crypto_webhook_signature_mismatch (fun _ _ => "aaaa") "secret"
    "rawbody" "bbbb" (by decide) sampleIpn 2 "i1" true sampleStore⟩

/-! ### C8 -/

/-- C8: a PayPal webhook event that passes signature verification mutates the
store only when its `event_type` is the completed-capture type and it carries a
(truthy) `custom_id`; any other verified event is acknowledged with 200 and
leaves the store unchanged. -/
theorem paypal_webhook_gate (event : PaypalEvent)
    (h : event.event_type ≠ some "PAYMENT.CAPTURE.COMPLETED"
         ∨ truthy event.custom_id = false) (s : Store) :
    paypal_webhook true true (some "SUCCESS") event s = (s, 200) := by
  unfold paypal_webhook
  rcases h with h | h
  · simp [h]
  · cases hc : event.custom_id with
    | none =>
      by_cases ht : event.event_type = some "PAYMENT.CAPTURE.COMPLETED" <;>
        simp [hc, ht]
    | some cid =>
      have hcid : cid = "" := by
        rw [hc] at h
        simpa [truthy] using h
      subst hcid
      by_cases ht : event.event_type = some "PAYMENT.CAPTURE.COMPLETED" <;>
        simp [hc, ht]

theorem paypal_webhook_gate_witness :
    ((some "PAYMENT.CAPTURE.DENIED" : Option String)
        ≠ some "PAYMENT.CAPTURE.COMPLETED"
      ∨ truthy (some "o1") = false)
    ∧ paypal_webhook true true (some "SUCCESS")
        { event_type := some "PAYMENT.CAPTURE.DENIED", custom_id := some "o1" }
        sampleStore = (sampleStore, 200) :=
  ⟨Or.inl (by decide), paypal_webhook_gate
    { event_type := some "PAYMENT.CAPTURE.DENIED", custom_id := some "o1" }
    (Or.inl (by decide)) sampleStore⟩

/-! ### C5 -/

/-- Characterization of the capture transaction on an existing order row: the
final row is exactly the COALESCE merge of the existing row. -/
theorem paypalCaptureDb_existing (now : Nat) (internal_id pp_oid : String)
    (reading mode : Option String) (amount : Rat)
    (payer_email payer_name : Option String) (item_id : String)
    (s : Store) (o : OrderRow) (h : findOrder s internal_id = some o) :
    findOrder (paypalCaptureDb now internal_id pp_oid reading mode amount
        payer_email payer_name item_id s) internal_id
      = some (captureMergeRow now amount pp_oid reading mode payer_email payer_name o) := by
  have hid : o.order_id = internal_id := findOrder_some_id s internal_id o h
  have hpres :
      (findOrder s (captureInsertRow now internal_id amount pp_oid reading mode).order_id).isSome := by
    show (findOrder s internal_id).isSome
    rw [h]
    rfl
  simp only [paypalCaptureDb]
  rw [insertOrIgnoreOrder_of_present _ _ hpres, findOrder_insertOrIgnoreItem,
    findOrder_updateOrders s internal_id internal_id
      (captureMergeRow now amount pp_oid reading mode payer_email payer_name)
      (fun _ => rfl), h]
  simp [hid]

/-- C5: in the capture-path settlement merge on an existing order row, `email`
and `name` take the incoming payer-reported value only when the stored value is
NULL (`COALESCE(email, ?)` / `COALESCE(name, ?)`); a non-NULL customer-entered
email or name is never overwritten. -/
theorem paypal_capture_email_name_merge
    (now : Nat) (internal_id pp_oid : String) (reading mode : Option String)
    (amount : Rat) (payer_email payer_name : Option String) (item_id : String)
    (s : Store) (o : OrderRow) (h : findOrder s internal_id = some o) :
    ∃ o', findOrder (paypalCaptureDb now internal_id pp_oid reading mode amount
            payer_email payer_name item_id s) internal_id = some o'
      ∧ o'.email = coalesce o.email payer_email
      ∧ o'.name = coalesce o.name payer_name
      ∧ (∀ e, o.email = some e → o'.email = some e)
      ∧ (∀ n, o.name = some n → o'.name = some n)
      ∧ (o.email = none → o'.email = payer_email)
      ∧ (o.name = none → o'.name = payer_name) := by
  refine ⟨captureMergeRow now amount pp_oid reading mode payer_email payer_name o,
    paypalCaptureDb_existing now internal_id pp_oid reading mode amount
      payer_email payer_name item_id s o h, rfl, rfl, ?_, ?_, ?_, ?_⟩
  · intro e he
    simp [captureMergeRow, coalesce, he]
  · intro n hn
    simp [captureMergeRow, coalesce, hn]
  · intro he
    simp [captureMergeRow, coalesce, he]
  · intro hn
    simp [captureMergeRow, coalesce, hn]

theorem paypal_capture_email_name_merge_witness :
    findOrder sampleStore "o1" = some sampleCreatedRow
    ∧ ∃ o', findOrder (paypalCaptureDb 2 "o1" "pp1" (some "natal") (some "pdf")
              90 (some "payer@example.com") (some "Payer Name") "i1" sampleStore)
            "o1" = some o'
        ∧ o'.email = coalesce sampleCreatedRow.email (some "payer@example.com")
        ∧ o'.name = coalesce sampleCreatedRow.name (some "Payer Name")
        ∧ (∀ e, sampleCreatedRow.email = some e → o'.email = some e)
        ∧ (∀ n, sampleCreatedRow.name = some n → o'.name = some n)
        ∧ (sampleCreatedRow.email = none → o'.email = some "payer@example.com")
        ∧ (sampleCreatedRow.name = none → o'.name = some "Payer Name") :=
  ⟨by decide, paypal_capture_email_name_merge 2 "o1" "pp1" (some "natal")
    (some "pdf") 90 (some "payer@example.com") (some "Payer Name") "i1"
    sampleStore sampleCreatedRow (by decide)⟩

/-! ### C10 -/

/-- C10: a crypto-checkout request whose `order_id` already exists in `orders`
leaves every field of the existing row (and the whole store) unchanged —
`INSERT OR IGNORE` is a no-op on a present key — and a new (unpaid, created)
row is appended only when the `order_id` is absent. -/
theorem crypto_checkout_existing_frame
    (reading_key mode : Option String) (oid : String) (invoiceOk : Bool)
    (invoice_url : Option String) (dbOk : Bool) (now : Nat) (s : Store) :
    ((findOrder s oid).isSome →
      crypto_checkout reading_key mode (some oid) invoiceOk invoice_url dbOk now s
        = (s, 302))
    ∧ (findOrder s oid = none →
        (crypto_checkout reading_key mode (some oid) invoiceOk invoice_url dbOk
            now s).1 = s
        ∨ ∃ r : OrderRow, r.order_id = oid ∧ r.payment_status = some "unpaid"
            ∧ r.status = some "created" ∧ r.captured_at = none
            ∧ (crypto_checkout reading_key mode (some oid) invoiceOk invoice_url
                dbOk now s).1.orders = s.orders ++ [r]) := by
  constructor
  · intro hs
    cases hrg : readingsGet reading_key with
    | none => simp [crypto_checkout, hrg]
    | some reading =>
      simp only [crypto_checkout, hrg]
      by_cases h1 : (mode ≠ some "pdf" ∧ mode ≠ some "video") ∨ ¬ truthy (some oid)
      · rw [if_pos h1]
      · rw [if_neg h1]
        by_cases h2 : ¬invoiceOk ∨ ¬ truthy invoice_url ∨ ¬dbOk
        · rw [if_pos h2]
        · rw [if_neg h2, insertOrIgnoreOrder_of_present _ _ hs]
  · intro hn
    cases hrg : readingsGet reading_key with
    | none => simp [crypto_checkout, hrg]
    | some reading =>
      simp only [crypto_checkout, hrg]
      by_cases h1 : (mode ≠ some "pdf" ∧ mode ≠ some "video") ∨ ¬ truthy (some oid)
      · rw [if_pos h1]
        exact Or.inl rfl
      · rw [if_neg h1]
        by_cases h2 : ¬invoiceOk ∨ ¬ truthy invoice_url ∨ ¬dbOk
        · rw [if_pos h2]
          exact Or.inl rfl
        · rw [if_neg h2]
          refine Or.inr ⟨cryptoCheckoutRow oid now
            (if mode = some "pdf" then reading.pdf_price else reading.video_price)
            reading_key mode, rfl, rfl, rfl, rfl, ?_⟩
          rw [insertOrIgnoreOrder_of_absent _ _ hn]

theorem crypto_checkout_existing_frame_witness :
    (findOrder samplePaidStore "o1").isSome
    ∧ crypto_checkout (some "natal") (some "pdf") (some "o1") true
        (some "https://pay.example/inv") true 3 samplePaidStore
      = (samplePaidStore, 302) :=
  ⟨by decide, (crypto_checkout_existing_frame (some "natal") (some "pdf") "o1"
    true (some "https://pay.example/inv") true 3 samplePaidStore).1 (by decide)⟩

/-! ### Row-predicate preservation machinery (for C1 and C6) -/

/-- Truth of a row predicate at the order row with key `oid` (false when the
row is absent). -/
def orderPred (P : OrderRow → Bool) (s : Store) (oid : String) : Bool :=
  match findOrder s oid with
  | some o => P o
  | none => false

theorem orderPred_true_elim (P : OrderRow → Bool) (s : Store) (oid : String)
    (h : orderPred P s oid = true) :
    ∃ o, findOrder s oid = some o ∧ P o = true := by
  unfold orderPred at h
  cases hf : findOrder s oid with
  | none => rw [hf] at h; exact absurd h (by simp)
  | some o => rw [hf] at h; exact ⟨o, rfl, h⟩

theorem orderPred_intro (P : OrderRow → Bool) (s : Store) (oid : String)
    (o : OrderRow) (h : findOrder s oid = some o) (hp : P o = true) :
    orderPred P s oid = true := by
  unfold orderPred
  rw [h]
  exact hp

theorem orderPred_append (P : OrderRow → Bool) (s : Store) (r : OrderRow)
    (oid : String) (h : orderPred P s oid = true) :
    orderPred P { s with orders := s.orders ++ [r] } oid = true := by
  obtain ⟨o, hf, hp⟩ := orderPred_true_elim P s oid h
  refine orderPred_intro P _ oid o ?_ hp
  unfold findOrder at hf ⊢
  exact find?_append_of_some _ _ _ _ hf

theorem orderPred_insertOrIgnoreOrder (P : OrderRow → Bool) (r : OrderRow)
    (s : Store) (oid : String) (h : orderPred P s oid = true) :
    orderPred P (insertOrIgnoreOrder r s) oid = true := by
  unfold insertOrIgnoreOrder
  by_cases hp : (findOrder s r.order_id).isSome
  · rw [if_pos hp]; exact h
  · rw [if_neg hp]; exact orderPred_append P s r oid h

theorem orderPred_insertOrIgnoreItem (P : OrderRow → Bool) (r : OrderItemRow)
    (s : Store) (oid : String) :
    orderPred P (insertOrIgnoreItem r s) oid = orderPred P s oid := by
  unfold orderPred
  rw [findOrder_insertOrIgnoreItem]

theorem orderPred_updateOrders (P : OrderRow → Bool) (uid oid : String)
    (g : OrderRow → OrderRow) (s : Store)
    (hg : ∀ o, (g o).order_id = o.order_id)
    (hPg : ∀ o, P o = true → P (g o) = true)
    (h : orderPred P s oid = true) :
    orderPred P (updateOrders uid g s) oid = true := by
  obtain ⟨o, hf, hp⟩ := orderPred_true_elim P s oid h
  have hmap := findOrder_updateOrders s uid oid g hg
  rw [hf] at hmap
  simp only [Option.map_some'] at hmap
  refine orderPred_intro P _ oid _ hmap ?_
  by_cases hc : (o.order_id == uid) = true
  · rw [if_pos hc]; exact hPg o hp
  · rw [if_neg hc]; exact hp

theorem orderPred_order_details_post (P : OrderRow → Bool)
    (rk m nm em : String) (bd bt bp sbd sbt sbp q : Option String)
    (oid2 iid : String) (now : Nat) (dbOk : Bool) (s : Store) (oid : String)
    (h : orderPred P s oid = true) :
    orderPred P (order_details_post rk m nm em bd bt bp sbd sbt sbp q oid2 iid
      now dbOk s).1 oid = true := by
  unfold order_details_post
  by_cases h1 : (readingsGet (some rk)).isNone ∨ (m ≠ "pdf" ∧ m ≠ "video")
  · rw [if_pos h1]; exact h
  · rw [if_neg h1]
    by_cases h2 : nm = "" ∨ em = ""
    · rw [if_pos h2]; exact h
    · rw [if_neg h2]
      by_cases h3 : (findOrder s oid2).isSome ∨ (findItem s iid).isSome ∨ ¬dbOk
      · rw [if_pos h3]; exact h
      · rw [if_neg h3]
        exact orderPred_append P s _ oid h

theorem orderPred_crypto_checkout (P : OrderRow → Bool)
    (rk m oid2 : Option String) (iOk : Bool) (iurl : Option String)
    (dbOk : Bool) (now : Nat) (s : Store) (oid : String)
    (h : orderPred P s oid = true) :
    orderPred P (crypto_checkout rk m oid2 iOk iurl dbOk now s).1 oid = true := by
  cases hrg : readingsGet rk with
  | none => simp only [crypto_checkout, hrg]; exact h
  | some reading =>
    cases oid2 with
    | none => simp only [crypto_checkout, hrg]; exact h
    | some o2 =>
      simp only [crypto_checkout, hrg]
      by_cases h1 : (m ≠ some "pdf" ∧ m ≠ some "video") ∨ ¬ truthy (some o2)
      · rw [if_pos h1]; exact h
      · rw [if_neg h1]
        by_cases h2 : ¬iOk ∨ ¬ truthy iurl ∨ ¬dbOk
        · rw [if_pos h2]; exact h
        · rw [if_neg h2]
          exact orderPred_insertOrIgnoreOrder P _ s oid h

theorem orderPred_api_paypal_orders (P : OrderRow → Bool)
    (oid2 rk m : Option String) (rOk : Bool) (pid : Option String)
    (dbOk : Bool) (now : Nat) (s : Store) (oid : String)
    (h : orderPred P s oid = true) :
    orderPred P (api_paypal_orders oid2 rk m rOk pid dbOk now s).1 oid = true := by
  cases oid2 with
  | none => simp only [api_paypal_orders]; exact h
  | some o2 =>
    cases hrg : readingsGet rk with
    | none => simp only [api_paypal_orders, hrg]; exact h
    | some reading =>
      simp only [api_paypal_orders, hrg]
      by_cases h1 : (m ≠ some "pdf" ∧ m ≠ some "video") ∨ ¬ truthy (some o2)
      · rw [if_pos h1]; exact h
      · rw [if_neg h1]
        by_cases h2 : ¬rOk
        · rw [if_pos h2]; exact h
        · rw [if_neg h2]
          by_cases h3 : ¬dbOk
          · rw [if_pos h3]; exact h
          · rw [if_neg h3]
            exact orderPred_insertOrIgnoreOrder P _ s oid h

theorem orderPred_paypalCaptureDb (P : OrderRow → Bool) (now : Nat)
    (iid2 pp : String) (r m : Option String) (amt : Rat)
    (pe pn : Option String) (itid : String) (s : Store) (oid : String)
    (hPg : ∀ o, P o = true → P (captureMergeRow now amt pp r m pe pn o) = true)
    (h : orderPred P s oid = true) :
    orderPred P (paypalCaptureDb now iid2 pp r m amt pe pn itid s) oid = true := by
  simp only [paypalCaptureDb]
  rw [orderPred_insertOrIgnoreItem]
  exact orderPred_updateOrders P iid2 oid
    (captureMergeRow now amt pp r m pe pn) _ (fun _ => rfl) hPg
    (orderPred_insertOrIgnoreOrder P _ s oid h)

theorem orderPred_api_paypal_capture (P : OrderRow → Bool) (rOk : Bool)
    (ps : Option String) (pOk : Bool) (now : Nat) (iid2 pp : String)
    (r m : Option String) (amt : Rat) (pe pn : Option String) (itid : String)
    (dbOk : Bool) (s : Store) (oid : String)
    (hPg : ∀ o, P o = true → P (captureMergeRow now amt pp r m pe pn o) = true)
    (h : orderPred P s oid = true) :
    orderPred P
      (api_paypal_capture rOk ps pOk now iid2 pp r m amt pe pn itid dbOk s).1
      oid = true := by
  unfold api_paypal_capture
  by_cases h1 : ¬rOk
  · rw [if_pos h1]; exact h
  · rw [if_neg h1]
    by_cases h2 : ps ≠ some "COMPLETED"
    · rw [if_pos h2]; exact h
    · rw [if_neg h2]
      by_cases h3 : ¬pOk
      · rw [if_pos h3]; exact h
      · rw [if_neg h3]
        by_cases h4 : ¬dbOk
        · rw [if_pos h4]; exact h
        · rw [if_neg h4]
          exact orderPred_paypalCaptureDb P now iid2 pp r m amt pe pn itid s oid
            hPg h

theorem orderPred_paypal_webhook (P : OrderRow → Bool) (wid vOk : Bool)
    (vs : Option String) (ev : PaypalEvent) (s : Store) (oid : String)
    (hPg : ∀ o, P o = true → P { o with payment_status := some "paid" } = true)
    (h : orderPred P s oid = true) :
    orderPred P (paypal_webhook wid vOk vs ev s).1 oid = true := by
  unfold paypal_webhook
  by_cases h1 : ¬wid
  · rw [if_pos h1]; exact h
  · rw [if_neg h1]
    by_cases h2 : ¬vOk
    · rw [if_pos h2]; exact h
    · rw [if_neg h2]
      by_cases h3 : vs = some "SUCCESS" ∧ ev.event_type = some "PAYMENT.CAPTURE.COMPLETED"
      · rw [if_pos h3]
        cases hc : ev.custom_id with
        | none => exact h
        | some cid =>
          have hgoal : orderPred P
              ((if cid ≠ "" then
                  (updateOrders cid (fun o => { o with payment_status := some "paid" }) s, 200)
                else (s, 200)) : Store × Nat).1 oid = true := by
            by_cases h4 : cid ≠ ""
            · rw [if_pos h4]
              exact orderPred_updateOrders P cid oid _ s (fun _ => rfl) hPg h
            · rw [if_neg h4]; exact h
          exact hgoal
      · rw [if_neg h3]; exact h

theorem orderPred_cryptoSettleDb (P : OrderRow → Bool) (now : Nat)
    (oid2 : String) (pay : Option Rat) (itid : String) (s : Store) (oid : String)
    (hPg : ∀ o, P o = true → P (cryptoSettleMerge now pay o) = true)
    (h : orderPred P s oid = true) :
    orderPred P (cryptoSettleDb now oid2 pay itid s) oid = true := by
  simp only [cryptoSettleDb]
  have hupd : orderPred P (updateOrders oid2 (cryptoSettleMerge now pay) s) oid = true :=
    orderPred_updateOrders P oid2 oid _ s (fun _ => rfl) hPg h
  cases hf : findOrder (updateOrders oid2 (cryptoSettleMerge now pay) s) oid2 with
  | none => exact hupd
  | some o =>
    rw [orderPred_insertOrIgnoreItem]
    exact hupd

theorem orderPred_crypto_webhook (P : OrderRow → Bool)
    (dg : String → String → String) (sec rb sg : String) (j : CryptoIpn)
    (now : Nat) (itid : String) (dbOk : Bool) (s : Store) (oid : String)
    (hPg : ∀ o, P o = true → P (cryptoSettleMerge now j.pay_amount o) = true)
    (h : orderPred P s oid = true) :
    orderPred P (crypto_webhook dg sec rb sg j now itid dbOk s).1 oid = true := by
  unfold crypto_webhook
  by_cases h1 : dg sec rb ≠ sg
  · rw [if_pos h1]; exact h
  · rw [if_neg h1]
    by_cases h2 : ¬ truthy j.order_id
    · rw [if_pos h2]; exact h
    · rw [if_neg h2]
      by_cases h3 : ipnSettles j.payment_status = true
      · rw [if_pos h3]
        by_cases h4 : ¬dbOk
        · rw [if_pos h4]; exact h
        · rw [if_neg h4]
          cases hc : j.order_id with
          | none => exact h
          | some o2 =>
            exact orderPred_cryptoSettleDb P now o2 j.pay_amount itid s oid hPg h
      · rw [if_neg h3]; exact h

/-! ### C1 -/

/-- Truth of "the order row `oid` exists and its `captured_at` is non-NULL". -/
def capturedSet (s : Store) (oid : String) : Bool :=
  orderPred (fun o => o.captured_at.isSome) s oid

/-- Truth of "the order row `oid` exists and its `payment_status` is 'paid'". -/
def paidAt (s : Store) (oid : String) : Bool :=
  orderPred (fun o => o.payment_status == some "paid") s oid

/-- C1 counterexample: the claim "once `captured_at` is set it is never ...
overwritten by a later write" fails on the code.  `samplePaidStore` holds order
"o1" with `captured_at` = time 1; a replayed crypto IPN settlement at time 2
runs `captured_at=datetime('now')` unconditionally and overwrites it with 2. -/
theorem captured_at_overwritten :
    (findOrder samplePaidStore "o1").map (fun o => o.captured_at) = some (some 1)
    ∧ (findOrder (cryptoSettleDb 2 "o1" (some 90) "i1" samplePaidStore) "o1").map
        (fun o => o.captured_at) = some (some 2)
    ∧ some (2 : Nat) ≠ some 1 := by
  refine ⟨rfl, rfl, by decide⟩

/-- C1 (amended): once `captured_at` is set on an order it is never cleared —
every operation (order creation, payment-intent creation, crypto checkout,
capture settlement, PayPal webhook, crypto IPN settlement) leaves it non-NULL —
but the capture and crypto settlement writes overwrite its value with the
current timestamp rather than keeping the first one. -/
theorem captured_at_never_cleared (s : Store) (oid : String)
    (h : capturedSet s oid = true) :
    (∀ (rk m nm em : String) (bd bt bp sbd sbt sbp q : Option String)
       (oid2 iid : String) (now : Nat) (dbOk : Bool),
       capturedSet (order_details_post rk m nm em bd bt bp sbd sbt sbp q oid2
         iid now dbOk s).1 oid = true)
    ∧ (∀ (rk m oid2 : Option String) (iOk : Bool) (iurl : Option String)
         (dbOk : Bool) (now : Nat),
         capturedSet (crypto_checkout rk m oid2 iOk iurl dbOk now s).1 oid = true)
    ∧ (∀ (oid2 rk m : Option String) (rOk : Bool) (pid : Option String)
         (dbOk : Bool) (now : Nat),
         capturedSet (api_paypal_orders oid2 rk m rOk pid dbOk now s).1 oid = true)
    ∧ (∀ (rOk : Bool) (ps : Option String) (pOk : Bool) (now : Nat)
         (iid2 pp : String) (r m : Option String) (amt : Rat)
         (pe pn : Option String) (itid : String) (dbOk : Bool),
         capturedSet (api_paypal_capture rOk ps pOk now iid2 pp r m amt pe pn
           itid dbOk s).1 oid = true)
    ∧ (∀ (wid vOk : Bool) (vs : Option String) (ev : PaypalEvent),
         capturedSet (paypal_webhook wid vOk vs ev s).1 oid = true)
    ∧ (∀ (dg : String → String → String) (sec rb sg : String) (j : CryptoIpn)
         (now : Nat) (itid : String) (dbOk : Bool),
         capturedSet (crypto_webhook dg sec rb sg j now itid dbOk s).1 oid = true) :=
  ⟨fun rk m nm em bd bt bp sbd sbt sbp q oid2 iid now dbOk =>
      orderPred_order_details_post _ rk m nm em bd bt bp sbd sbt sbp q oid2 iid
        now dbOk s oid h
  , fun rk m oid2 iOk iurl dbOk now =>
      orderPred_crypto_checkout _ rk m oid2 iOk iurl dbOk now s oid h
  , fun oid2 rk m rOk pid dbOk now =>
      orderPred_api_paypal_orders _ oid2 rk m rOk pid dbOk now s oid h
  , fun rOk ps pOk now iid2 pp r m amt pe pn itid dbOk =>
      orderPred_api_paypal_capture _ rOk ps pOk now iid2 pp r m amt pe pn itid
        dbOk s oid (fun _ _ => rfl) h
  , fun wid vOk vs ev =>
      orderPred_paypal_webhook _ wid vOk vs ev s oid (fun _ hp => hp) h
  , fun dg sec rb sg j now itid dbOk =>
      orderPred_crypto_webhook _ dg sec rb sg j now itid dbOk s oid
        (fun _ _ => rfl) h⟩

theorem captured_at_never_cleared_witness :
    capturedSet samplePaidStore "o1" = true
    ∧ capturedSet (crypto_webhook (fun _ _ => "x") "sec" "body" "x" sampleIpn 7
        "i9" true samplePaidStore).1 "o1" = true :=
  ⟨by decide, (captured_at_never_cleared samplePaidStore "o1" (by decide)).2.2.2.2.2
    (fun _ _ => "x") "sec" "body" "x" sampleIpn 7 "i9" true⟩

/-! ### C6 -/

/-- C6: `payment_status` is monotonic — once an order is 'paid', no operation
(order creation attempt, payment-intent creation, crypto checkout, capture,
PayPal webhook, crypto IPN settlement) reverts it to 'unpaid': creation paths
insert-or-ignore (or fail on the duplicate key), and every settlement merge
sets 'paid' again. -/
theorem payment_status_monotonic (s : Store) (oid : String)
    (h : paidAt s oid = true) :
    (∀ (rk m nm em : String) (bd bt bp sbd sbt sbp q : Option String)
       (oid2 iid : String) (now : Nat) (dbOk : Bool),
       paidAt (order_details_post rk m nm em bd bt bp sbd sbt sbp q oid2
         iid now dbOk s).1 oid = true)
    ∧ (∀ (rk m oid2 : Option String) (iOk : Bool) (iurl : Option String)
         (dbOk : Bool) (now : Nat),
         paidAt (crypto_checkout rk m oid2 iOk iurl dbOk now s).1 oid = true)
    ∧ (∀ (oid2 rk m : Option String) (rOk : Bool) (pid : Option String)
         (dbOk : Bool) (now : Nat),
         paidAt (api_paypal_orders oid2 rk m rOk pid dbOk now s).1 oid = true)
    ∧ (∀ (rOk : Bool) (ps : Option String) (pOk : Bool) (now : Nat)
         (iid2 pp : String) (r m : Option String) (amt : Rat)
         (pe pn : Option String) (itid : String) (dbOk : Bool),
         paidAt (api_paypal_capture rOk ps pOk now iid2 pp r m amt pe pn
           itid dbOk s).1 oid = true)
    ∧ (∀ (wid vOk : Bool) (vs : Option String) (ev : PaypalEvent),
         paidAt (paypal_webhook wid vOk vs ev s).1 oid = true)
    ∧ (∀ (dg : String → String → String) (sec rb sg : String) (j : CryptoIpn)
         (now : Nat) (itid : String) (dbOk : Bool),
         paidAt (crypto_webhook dg sec rb sg j now itid dbOk s).1 oid = true) :=
  ⟨fun rk m nm em bd bt bp sbd sbt sbp q oid2 iid now dbOk =>
      orderPred_order_details_post _ rk m nm em bd bt bp sbd sbt sbp q oid2 iid
        now dbOk s oid h
  , fun rk m oid2 iOk iurl dbOk now =>
      orderPred_crypto_checkout _ rk m oid2 iOk iurl dbOk now s oid h
  , fun oid2 rk m rOk pid dbOk now =>
      orderPred_api_paypal_orders _ oid2 rk m rOk pid dbOk now s oid h
  , fun rOk ps pOk now iid2 pp r m amt pe pn itid dbOk =>
      orderPred_api_paypal_capture _ rOk ps pOk now iid2 pp r m amt pe pn itid
        dbOk s oid (fun _ _ => rfl) h
  , fun wid vOk vs ev =>
      orderPred_paypal_webhook _ wid vOk vs ev s oid (fun _ _ => rfl) h
  , fun dg sec rb sg j now itid dbOk =>
      orderPred_crypto_webhook _ dg sec rb sg j now itid dbOk s oid
        (fun _ _ => rfl) h⟩

theorem payment_status_monotonic_witness :
    paidAt samplePaidStore "o1" = true
    ∧ paidAt (crypto_checkout (some "natal") (some "pdf") (some "o1") true
        (some "https://pay.example/inv") true 9 samplePaidStore).1 "o1" = true :=
  ⟨by decide, (payment_status_monotonic samplePaidStore "o1" (by decide)).2.1
    (some "natal") (some "pdf") (some "o1") true
    (some "https://pay.example/inv") true 9⟩

/-! ### C3 -/

/-- C3 counterexample: a verified completed-capture PayPal webhook does NOT
produce the capture-path final state.  On a created order, the webhook leaves
`status` = 'created' (not 'captured'), `captured_at` NULL (not set) and
`total_price` NULL (not filled from the reported amount); it changes only
`payment_status`. -/
theorem paypal_webhook_not_equivalent_to_capture :
    (findOrder (paypal_webhook true true (some "SUCCESS")
        { event_type := some "PAYMENT.CAPTURE.COMPLETED", custom_id := some "o1" }
        sampleStore).1 "o1").map
      (fun o => (o.payment_status, o.status, o.captured_at, o.total_price))
      = some (some "paid", some "created", none, none)
    ∧ (some "created" : Option String) ≠ some "captured"
    ∧ (none : Option Nat) ≠ some 2
    ∧ (findOrder (api_paypal_capture true (some "COMPLETED") true 2 "o1" "pp1"
          (some "natal") (some "pdf") 90 none none "i1" true sampleStore).1
        "o1").map (fun o => (o.payment_status, o.status, o.captured_at, o.total_price))
      = some (some "paid", some "captured", some 2, some 90) := by
  refine ⟨rfl, by decide, by decide, by decide⟩

/-- C3 (amended): a verified completed-capture PayPal webhook applies only
`UPDATE orders SET payment_status = 'paid'` to the referenced order: the final
row equals the prior row with `payment_status` replaced, every other field
(`status`, `captured_at`, `total_price`, `email`, `name`, ...) is untouched,
no order_item is inserted, and the handler acknowledges with 200 — so the
webhook path does not apply the capture path's settlement update. -/
theorem paypal_webhook_only_payment_status (ev : PaypalEvent) (cid : String)
    (s : Store) (o : OrderRow)
    (hevt : ev.event_type = some "PAYMENT.CAPTURE.COMPLETED")
    (hcid : ev.custom_id = some cid) (hne : cid ≠ "")
    (hf : findOrder s cid = some o) :
    paypal_webhook true true (some "SUCCESS") ev s
      = (updateOrders cid (fun r => { r with payment_status := some "paid" }) s, 200)
    ∧ findOrder (paypal_webhook true true (some "SUCCESS") ev s).1 cid
      = some { o with payment_status := some "paid" }
    ∧ (paypal_webhook true true (some "SUCCESS") ev s).1.order_items
      = s.order_items := by
  have hid : o.order_id = cid := findOrder_some_id s cid o hf
  have heq : paypal_webhook true true (some "SUCCESS") ev s
      = (updateOrders cid (fun r => { r with payment_status := some "paid" }) s, 200) := by
    unfold paypal_webhook
    rw [if_neg (by simp), if_neg (by simp), if_pos ⟨rfl, hevt⟩, hcid]
    simp [hne]
  refine ⟨heq, ?_, ?_⟩
  · rw [heq]
    rw [findOrder_updateOrders s cid cid
      (fun r => { r with payment_status := some "paid" }) (fun _ => rfl), hf]
    simp [hid]
  · rw [heq]
    rfl

theorem paypal_webhook_only_payment_status_witness :
    ((some "PAYMENT.CAPTURE.COMPLETED" : Option String)
        = some "PAYMENT.CAPTURE.COMPLETED")
    ∧ ("o1" : String) ≠ ""
    ∧ findOrder sampleStore "o1" = some sampleCreatedRow
    ∧ (paypal_webhook true true (some "SUCCESS")
        { event_type := some "PAYMENT.CAPTURE.COMPLETED", custom_id := some "o1" }
        sampleStore
      = (updateOrders "o1" (fun r => { r with payment_status := some "paid" })
          sampleStore, 200)
      ∧ findOrder (paypal_webhook true true (some "SUCCESS")
          { event_type := some "PAYMENT.CAPTURE.COMPLETED", custom_id := some "o1" }
          sampleStore).1 "o1"
        = some { sampleCreatedRow with payment_status := some "paid" }
      ∧ (paypal_webhook true true (some "SUCCESS")
          { event_type := some "PAYMENT.CAPTURE.COMPLETED", custom_id := some "o1" }
          sampleStore).1.order_items = sampleStore.order_items) :=
  ⟨rfl, by decide, by decide,
    paypal_webhook_only_payment_status
      { event_type := some "PAYMENT.CAPTURE.COMPLETED", custom_id := some "o1" }
      "o1" sampleStore sampleCreatedRow rfl rfl (by decide) (by decide)⟩

/-! ### C4 -/

/-- C4 counterexample: when the crypto IPN settlement write raises, the handler
logs the error and responds 200 ("OK"), not a 500-class error, so the claim
"the handler surfaces a 500-class error response ... on both the PayPal capture
path and the crypto IPN path" fails on the crypto path (the store is still left
unchanged). -/
theorem crypto_db_error_returns_200 :
    crypto_webhook (fun _ _ => "x") "sec" "body" "x" sampleIpn 2 "i1" false
      sampleStore = (sampleStore, 200)
    ∧ ¬(500 ≤ 200 ∧ 200 < 600) := by
  refine ⟨rfl, by decide⟩

/-- C4 (amended): a store-write exception during settlement leaves the store in
its pre-transaction state on both paths (the transaction is never committed);
the PayPal capture handler additionally rolls back and surfaces HTTP 500, while
the crypto IPN handler logs the error and responds 200 (or 403 on a signature
mismatch), never a 500-class status. -/
theorem settlement_db_error_handling :
    (∀ (now : Nat) (iid2 pp : String) (r m : Option String) (amt : Rat)
       (pe pn : Option String) (itid : String) (s : Store),
       api_paypal_capture true (some "COMPLETED") true now iid2 pp r m amt pe pn
         itid false s = (s, 500))
    ∧ (∀ (dg : String → String → String) (sec rb sg : String) (j : CryptoIpn)
         (now : Nat) (itid : String) (s : Store),
         (crypto_webhook dg sec rb sg j now itid false s).1 = s
         ∧ ((crypto_webhook dg sec rb sg j now itid false s).2 = 403
            ∨ (crypto_webhook dg sec rb sg j now itid false s).2 = 200)) := by
  constructor
  · intro now iid2 pp r m amt pe pn itid s
    simp [api_paypal_capture]
  · intro dg sec rb sg j now itid s
    unfold crypto_webhook
    by_cases h1 : dg sec rb ≠ sg
    · rw [if_pos h1]
      exact ⟨rfl, Or.inl rfl⟩
    · rw [if_neg h1]
      by_cases h2 : ¬ truthy j.order_id
      · rw [if_pos h2]
        exact ⟨rfl, Or.inr rfl⟩
      · rw [if_neg h2]
        by_cases h3 : ipnSettles j.payment_status = true
        · rw [if_pos h3, if_pos (by decide)]
          exact ⟨rfl, Or.inr rfl⟩
        · rw [if_neg h3]
          exact ⟨rfl, Or.inr rfl⟩

/-! ### C2 -/

theorem captureMergeRow_idem (now : Nat) (amt : Rat) (pp : String)
    (r m pe pn : Option String) (o : OrderRow) :
    captureMergeRow now amt pp r m pe pn (captureMergeRow now amt pp r m pe pn o)
      = captureMergeRow now amt pp r m pe pn o := by
  cases hr : r <;> cases hm : m <;> cases he : o.email <;> cases hn : o.name <;>
    cases hpe : pe <;> cases hpn : pn <;>
      simp [captureMergeRow, coalesce, he, hn]

theorem cryptoSettleMerge_idem (now : Nat) (pay : Option Rat) (o : OrderRow) :
    cryptoSettleMerge now pay (cryptoSettleMerge now pay o)
      = cryptoSettleMerge now pay o := by
  cases hp : pay <;> simp [cryptoSettleMerge, coalesce]

theorem updateOrders_idem (uid : String) (g : OrderRow → OrderRow) (s : Store)
    (hg : ∀ o, (g o).order_id = o.order_id) (hi : ∀ o, g (g o) = g o) :
    updateOrders uid g (updateOrders uid g s) = updateOrders uid g s := by
  unfold updateOrders
  congr 1
  rw [List.map_map]
  apply List.map_congr_left
  intro o _
  simp only [Function.comp_apply]
  by_cases hc : (o.order_id == uid) = true <;> simp [hc, hg, hi]

theorem updateOrders_insertOrIgnoreItem_comm (uid : String)
    (g : OrderRow → OrderRow) (it : OrderItemRow) (s : Store) :
    updateOrders uid g (insertOrIgnoreItem it s)
      = insertOrIgnoreItem it (updateOrders uid g s) := by
  by_cases h : (s.order_items.find? (fun i => i.item_id == it.item_id)).isSome <;>
    simp [insertOrIgnoreItem, updateOrders, findItem, h]

theorem insertOrIgnoreItem_idem (r : OrderItemRow) (s : Store) :
    insertOrIgnoreItem r (insertOrIgnoreItem r s) = insertOrIgnoreItem r s :=
  insertOrIgnoreItem_of_present r _ (findItem_insertOrIgnoreItem_self r s)

theorem findOrder_paypalCaptureDb_isSome (now : Nat) (iid pp : String)
    (r m : Option String) (amt : Rat) (pe pn : Option String) (itid : String)
    (s : Store) :
    (findOrder (paypalCaptureDb now iid pp r m amt pe pn itid s) iid).isSome := by
  simp only [paypalCaptureDb]
  rw [findOrder_insertOrIgnoreItem,
    findOrder_updateOrders _ iid iid (captureMergeRow now amt pp r m pe pn)
      (fun _ => rfl), Option.isSome_map']
  exact findOrder_insertOrIgnoreOrder_self (captureInsertRow now iid amt pp r m) s

theorem paypalCaptureDb_idem (now : Nat) (iid pp : String) (r m : Option String)
    (amt : Rat) (pe pn : Option String) (itid : String) (s : Store) :
    paypalCaptureDb now iid pp r m amt pe pn itid
      (paypalCaptureDb now iid pp r m amt pe pn itid s)
      = paypalCaptureDb now iid pp r m amt pe pn itid s := by
  have hstep1 :
      insertOrIgnoreOrder (captureInsertRow now iid amt pp r m)
        (paypalCaptureDb now iid pp r m amt pe pn itid s)
      = paypalCaptureDb now iid pp r m amt pe pn itid s :=
    insertOrIgnoreOrder_of_present _ _
      (findOrder_paypalCaptureDb_isSome now iid pp r m amt pe pn itid s)
  show insertOrIgnoreItem _
    (updateOrders iid (captureMergeRow now amt pp r m pe pn)
      (insertOrIgnoreOrder (captureInsertRow now iid amt pp r m)
        (paypalCaptureDb now iid pp r m amt pe pn itid s)))
    = paypalCaptureDb now iid pp r m amt pe pn itid s
  rw [hstep1]
  show insertOrIgnoreItem _
    (updateOrders iid (captureMergeRow now amt pp r m pe pn)
      (insertOrIgnoreItem _
        (updateOrders iid (captureMergeRow now amt pp r m pe pn)
          (insertOrIgnoreOrder (captureInsertRow now iid amt pp r m) s))))
    = paypalCaptureDb now iid pp r m amt pe pn itid s
  rw [updateOrders_insertOrIgnoreItem_comm,
    updateOrders_idem iid (captureMergeRow now amt pp r m pe pn) _ (fun _ => rfl)
      (captureMergeRow_idem now amt pp r m pe pn),
    insertOrIgnoreItem_idem]
  rfl

theorem cryptoSettleDb_idem (now : Nat) (oid : String) (pay : Option Rat)
    (itid : String) (s : Store) :
    cryptoSettleDb now oid pay itid (cryptoSettleDb now oid pay itid s)
      = cryptoSettleDb now oid pay itid s := by
  have hBB : updateOrders oid (cryptoSettleMerge now pay)
      (updateOrders oid (cryptoSettleMerge now pay) s)
      = updateOrders oid (cryptoSettleMerge now pay) s :=
    updateOrders_idem oid (cryptoSettleMerge now pay) s (fun _ => rfl)
      (cryptoSettleMerge_idem now pay)
  cases hf : findOrder (updateOrders oid (cryptoSettleMerge now pay) s) oid with
  | none =>
    have hA : cryptoSettleDb now oid pay itid s
        = updateOrders oid (cryptoSettleMerge now pay) s := by
      simp only [cryptoSettleDb, hf]
    rw [hA]
    simp only [cryptoSettleDb, hBB, hf]
  | some o =>
    have hA : cryptoSettleDb now oid pay itid s
        = insertOrIgnoreItem
            { order_id := o.order_id, item_id := itid, reading_type := o.reading
            , reading_mode := o.mode, price := o.total_price, question := none }
            (updateOrders oid (cryptoSettleMerge now pay) s) := by
      simp only [cryptoSettleDb, hf]
    rw [hA]
    have h1 : updateOrders oid (cryptoSettleMerge now pay)
        (insertOrIgnoreItem
          { order_id := o.order_id, item_id := itid, reading_type := o.reading
          , reading_mode := o.mode, price := o.total_price, question := none }
          (updateOrders oid (cryptoSettleMerge now pay) s))
        = insertOrIgnoreItem
            { order_id := o.order_id, item_id := itid, reading_type := o.reading
            , reading_mode := o.mode, price := o.total_price, question := none }
            (updateOrders oid (cryptoSettleMerge now pay) s) := by
      rw [updateOrders_insertOrIgnoreItem_comm, hBB]
    have h2 : findOrder
        (insertOrIgnoreItem
          { order_id := o.order_id, item_id := itid, reading_type := o.reading
          , reading_mode := o.mode, price := o.total_price, question := none }
          (updateOrders oid (cryptoSettleMerge now pay) s)) oid = some o := by
      rw [findOrder_insertOrIgnoreItem]
      exact hf
    simp only [cryptoSettleDb, h1, h2]
    exact insertOrIgnoreItem_of_present _ _ (findItem_insertOrIgnoreItem_self _ _)

/-- C2 counterexample: the parenthetical "(a duplicate capture call or a
replayed webhook/IPN ...)" fails: each capture call generates a fresh
`uuid4()` item primary key, so the second application of the settlement
transaction inserts a second `order_items` row for the same order
(`INSERT OR IGNORE` never fires on a fresh key).  Concretely, the second
capture of order "o1" grows the item table from 2 rows to 3. -/
theorem duplicate_capture_inserts_second_item :
    (paypalCaptureDb 1 "o1" "pp1" (some "natal") (some "pdf") 90 none none "i1"
        sampleStore).order_items.length = 2
    ∧ (paypalCaptureDb 1 "o1" "pp1" (some "natal") (some "pdf") 90 none none "i2"
        (paypalCaptureDb 1 "o1" "pp1" (some "natal") (some "pdf") 90 none none
          "i1" sampleStore)).order_items.length = 3
    ∧ (3 : Nat) ≠ 2 := by
  refine ⟨rfl, rfl, by decide⟩

/-- C2 (amended): applying either settlement transaction twice with fully
identical arguments — including the same timestamp and the same generated
`item_id` — leaves the store exactly as after one application (the order row
merge is idempotent and the item insert is ignored on the repeated key); but a
real duplicate capture call or replayed IPN draws a fresh `uuid4()` item id, so
its second application inserts a duplicate order_item row (the order row itself
is unchanged when the timestamp is equal). -/
theorem settlement_upsert_idempotent (now : Nat) (iid pp : String)
    (r m : Option String) (amt : Rat) (pe pn : Option String) (itid : String)
    (pay : Option Rat) (s : Store) :
    paypalCaptureDb now iid pp r m amt pe pn itid
      (paypalCaptureDb now iid pp r m amt pe pn itid s)
      = paypalCaptureDb now iid pp r m amt pe pn itid s
    ∧ cryptoSettleDb now iid pay itid (cryptoSettleDb now iid pay itid s)
      = cryptoSettleDb now iid pay itid s :=
  ⟨paypalCaptureDb_idem now iid pp r m amt pe pn itid s,
   cryptoSettleDb_idem now iid pay itid s⟩
